import Mathlib

/-!
Verification of the spud-sdk governance core: a shallow embedding of the
TypeScript source (agent context / failure policy, governance intercept,
MCP proxy handler, JWT validator with JWKS caching, and the token-session
client), together with theorems settling the frozen specification claims.

Network I/O and ambient crypto are modelled as explicit oracle parameters
(the response a given fetch would produce, a Boolean signature verifier),
so every function here is a pure, executable translation of the
corresponding source function.
-/

namespace Spud

/-- Failure mode for a tool when the governance service is unreachable.
Mirrors the string union `"open" | "closed"` in the source. -/
inductive FailureMode
  | open'
  | closed
deriving DecidableEq, Repr, BEq

/-- `FailurePolicy` from `src/types.ts`, after the constructor of
`AgentContext` has filled in the defaults (`failOpen = []`,
`failClosed = []`, `default = "closed"`). -/
structure FailurePolicy where
  failOpen : List String
  failClosed : List String
  dflt : FailureMode
deriving DecidableEq, Repr

/-- The defaulting the `AgentContext` constructor applies to a partial
`FailurePolicy` (`fp.failOpen ?? []`, `fp.failClosed ?? []`,
`fp.default ?? "closed"`). -/
def mkFailurePolicy (failOpen failClosed : Option (List String))
    (dflt : Option FailureMode) : FailurePolicy :=
  { failOpen := failOpen.getD [],
    failClosed := failClosed.getD [],
    dflt := dflt.getD FailureMode.closed }

/-- `pattern.endsWith "*"` from the source, computed on the character
list so that it evaluates in the kernel. -/
def endsWithStar (pattern : String) : Bool :=
  pattern.data.getLast? = some '*'

/-- `name.startsWith (pattern.slice 0 -1)` from the source: drop the
final character of the pattern and test for a prefix of the name. -/
def startsWithStem (pattern name : String) : Bool :=
  pattern.data.dropLast.isPrefixOf name.data

/-- `matchPattern` from `src/agent/context.ts`: a pattern ending in `*`
matches any name starting with the pattern minus its final character;
any other pattern requires exact equality. -/
def matchPattern (pattern name : String) : Bool :=
  if endsWithStar pattern then
    startsWithStem pattern name
  else
    pattern.data = name.data

/-- `matchesAny` from `src/agent/context.ts`. -/
def matchesAny (patterns : List String) (name : String) : Bool :=
  patterns.any (fun p => matchPattern p name)

/-- `AgentContext.failureModeFor` from `src/agent/context.ts`:
fail-open patterns first, then fail-closed patterns, then the default. -/
def failureModeFor (fp : FailurePolicy) (toolName : String) : FailureMode :=
  if matchesAny fp.failOpen toolName then FailureMode.open'
  else if matchesAny fp.failClosed toolName then FailureMode.closed
  else fp.dflt

example : failureModeFor ⟨["send_*"], ["send_*"], FailureMode.closed⟩ "send_email"
    = FailureMode.open' := by decide

example : matchPattern "get_*" "get_user" = true := by decide
example : matchPattern "get_*" "getuser" = false := by decide
example : matchPattern "get_*" "list_get" = false := by decide

/-- Stable machine error codes of `SpudError` (`src/types.ts`), plus two
codes that model exceptions which are not `SpudError`s in the source:
`NETWORK_FAILURE` for a rejected/timed-out `fetch` (TypeError or
AbortError) and `JSON_SYNTAX_ERROR` for an uncaught `JSON.parse` throw. -/
inductive ErrCode
  | INVALID_JWT
  | INVALID_SIGNATURE
  | TOKEN_EXPIRED
  | KEY_NOT_FOUND
  | UNSUPPORTED_ALG
  | MISSING_TOKEN
  | JWKS_FETCH_FAILED (status : Nat)
  | AUTH_FAILED (status : Nat)
  | INVALID_TOKEN
  | API_ERROR (status : Nat)
  | CLIENT_DESTROYED
  | NOT_CONNECTED
  | NETWORK_FAILURE
  | JSON_SYNTAX_ERROR
deriving DecidableEq, Repr

/-- `GovernanceMode` from `src/types.ts`. -/
inductive GovernanceMode
  | enforcing
  | permissive
  | dryRun
deriving DecidableEq, Repr

/-- `GovernResponse` from `src/types.ts` (`reason` is optional). -/
structure GovernResponse where
  permitted : Bool
  reason : Option String
  decision_id : String
deriving DecidableEq, Repr

/-- `InterceptResult` from `src/types.ts`. -/
structure InterceptResult where
  proceed : Bool
  decision : GovernResponse
deriving DecidableEq, Repr

/-- `TokenResponse` from `src/types.ts` (`expires_at` in Unix seconds). -/
structure TokenResponse where
  token : String
  expires_at : Int
deriving DecidableEq, Repr

/-- The mutable credential fields of `SpudClient` (`src/core/client.ts`):
the cached JWT, its expiry, and the destroyed flag. -/
structure ClientState where
  jwt : Option String
  jwtExpiresAt : Int
  destroyed : Bool
deriving DecidableEq, Repr

/-- The fresh state after the `SpudClient` constructor. -/
def ClientState.initial : ClientState :=
  { jwt := none, jwtExpiresAt := 0, destroyed := false }

/-- What the network would do for one outbound HTTP call: the fetch
itself rejects (timeout / network error), the response has a non-success
status, or the response is success with a parsed body. -/
inductive HttpOutcome (α : Type)
  | netFail
  | httpError (status : Nat)
  | ok (a : α)
deriving DecidableEq, Repr

/-- `MAX_REASONABLE_TOKEN_LIFETIME_SEC` from `src/core/client.ts`:
7 days in seconds. -/
def MAX_REASONABLE_TOKEN_LIFETIME_SEC : Int := 7 * 24 * 3600

/-- `SpudClient.fetchToken` from `src/core/client.ts` (part_009 variant,
the one with expiry validation). `nowSec` is `Math.floor(Date.now()/1000)`
at validation time and `resp` is the outcome of the POST to
`/v1/auth/token`. On success the credential is stored wholesale; on any
failure the error propagates and the state is untouched (`connect()`
rethrows it before starting timers). -/
def fetchToken (st : ClientState) (nowSec : Int)
    (resp : HttpOutcome TokenResponse) : Except ErrCode ClientState :=
  match resp with
  | .netFail => .error .NETWORK_FAILURE
  | .httpError status => .error (.AUTH_FAILED status)
  | .ok data =>
    if data.expires_at ≤ nowSec then
      .error .INVALID_TOKEN
    else if data.expires_at > nowSec + MAX_REASONABLE_TOKEN_LIFETIME_SEC then
      .error .INVALID_TOKEN
    else
      .ok { st with jwt := some data.token, jwtExpiresAt := data.expires_at }

/-- `SpudClient.request` from `src/core/client.ts`: fails typed with
`CLIENT_DESTROYED` after teardown and `NOT_CONNECTED` before `connect()`;
otherwise the outcome of the authenticated fetch decides (non-success
status becomes `API_ERROR status`). -/
def request {α : Type} (st : ClientState) (net : HttpOutcome α) :
    Except ErrCode α :=
  if st.destroyed then .error .CLIENT_DESTROYED
  else
    match st.jwt with
    | none => .error .NOT_CONNECTED
    | some _ =>
      match net with
      | .netFail => .error .NETWORK_FAILURE
      | .httpError status => .error (.API_ERROR status)
      | .ok a => .ok a

/-- `SpudAgent.intercept` from `src/agent/wrapper.ts`. The governance
request body (enriched context, action string) does not influence the
returned verdict, so it is abstracted into the `net` oracle giving the
outcome of `client.request("POST", "/v1/govern", ...)`. The bare `catch`
in the source turns every thrown error — timeout, network error,
non-success status, and also `CLIENT_DESTROYED` / `NOT_CONNECTED` — into
the failure-policy synthetic decision; a successful decision is returned
raw with `proceed` derived from the mode. -/
def intercept (mode : GovernanceMode) (fp : FailurePolicy) (toolName : String)
    (st : ClientState) (net : HttpOutcome GovernResponse) : InterceptResult :=
  match request st net with
  | .error _ =>
    let failMode := failureModeFor fp toolName
    let allowed : Bool := failMode = FailureMode.open'
    { proceed := allowed,
      decision :=
        { permitted := allowed,
          reason := some (if allowed then
              "Governance unavailable — fail-open applied"
            else
              "Governance unavailable — fail-closed applied"),
          decision_id := "" } }
  | .ok decision =>
    match mode with
    | .dryRun => { proceed := true, decision := decision }
    | .permissive => { proceed := true, decision := decision }
    | .enforcing => { proceed := decision.permitted, decision := decision }

/-- A JSON-RPC message id: `number | string` in `src/types.ts`. -/
inductive RpcId
  | num (n : Int)
  | str (s : String)
deriving DecidableEq, Repr

/-- `ToolCallParams` from `src/types.ts` (`arguments` optional; argument
values are opaque to the governance logic and modelled as strings). -/
structure ToolCallParams where
  name : String
  arguments : Option (List (String × String))
deriving DecidableEq, Repr

/-- `JsonRpcRequest` from `src/types.ts`. `params` is `unknown` in the
source and only ever read through an unchecked cast to `ToolCallParams`;
`none` models a `tools/call` whose params is absent or null, where
reading `params.name` throws a TypeError. -/
structure JsonRpcRequest where
  id : RpcId
  method : String
  params : Option ToolCallParams
deriving DecidableEq, Repr

/-- The result of `await request.text()` followed by `JSON.parse`, at
the granularity the handler's property accesses distinguish:
`JSON.parse` throws (`malformed`); it yields JSON `null`, on which the
`body.method` access throws a TypeError (`nullBody`); it yields a
non-null value whose `method` property reads `undefined` — primitives
and arrays box, objects may simply lack the field (`noMethod`); or it
yields an object carrying a string `method` field (`rpc`, with any
method value). The original text is kept alongside because the proxy
forwards it verbatim. -/
inductive ProxyInput
  | malformed (text : String)
  | nullBody (text : String)
  | noMethod (text : String)
  | rpc (text : String) (req : JsonRpcRequest)
deriving DecidableEq, Repr

/-- What the proxy handler replies with: the body it forwarded to the
upstream, a JSON-RPC error `{jsonrpc, id, error:{code, message}}` with
its HTTP transport status, or an uncaught TypeError (a body parsing to
JSON `null`, or a `tools/call` whose params is missing or null). -/
inductive ProxyOutcome
  | forwardBody (body : String)
  | errorReply (id : RpcId) (code : Int) (message : String) (httpStatus : Nat)
  | crash
deriving DecidableEq, Repr

/-- `jsonRpcError` from `src/agent/wrapper.ts`: code `-32600`, HTTP
status 200 (JSON-RPC errors still use a successful transport status). -/
def jsonRpcError (id : RpcId) (message : String) : ProxyOutcome :=
  ProxyOutcome.errorReply id (-32600) message 200

/-- The observable trace of one `SpudProxy.handler` call: the response
plus how many governance requests (`intercept`) and upstream backend
calls (`forward`) it made. -/
structure HandlerTrace where
  response : ProxyOutcome
  governRequests : Nat
  backendCalls : Nat
deriving DecidableEq, Repr

/-- `SpudProxy.handler` from `src/agent/wrapper.ts`: unparseable bodies
are forwarded verbatim; a body parsing to JSON `null` throws an
uncaught TypeError at the `body.method` access (neither forwarded nor
answered); parsed values whose `method` property is `undefined` or any
string other than `"tools/call"` are forwarded verbatim with no
governance request; a `tools/call` with missing or null params throws
the uncaught TypeError at `params.name`; otherwise the call is
intercepted, and on `proceed = false` the handler answers with
`jsonRpcError` over the original id (reason defaulted) without
contacting the backend, while on `proceed = true` it forwards the
original body string unchanged. -/
def handler (mode : GovernanceMode) (fp : FailurePolicy) (st : ClientState)
    (input : ProxyInput) (net : HttpOutcome GovernResponse) : HandlerTrace :=
  match input with
  | .malformed text => { response := .forwardBody text, governRequests := 0, backendCalls := 1 }
  | .nullBody _ => { response := .crash, governRequests := 0, backendCalls := 0 }
  | .noMethod text => { response := .forwardBody text, governRequests := 0, backendCalls := 1 }
  | .rpc text body =>
    if body.method ≠ "tools/call" then
      { response := .forwardBody text, governRequests := 0, backendCalls := 1 }
    else
      match body.params with
      | none => { response := .crash, governRequests := 0, backendCalls := 0 }
      | some params =>
        let toolName := params.name
        let result := intercept mode fp toolName st net
        if ¬ result.proceed then
          { response := jsonRpcError body.id
              (result.decision.reason.getD "Action denied by governance policy"),
            governRequests := 1, backendCalls := 0 }
        else
          { response := .forwardBody text, governRequests := 1, backendCalls := 1 }

/-- JS object / `Map` key write: overwrite the existing entry in place
when the key is present, append a new entry otherwise. -/
def setKey {V : Type} : List (String × V) → String → V → List (String × V)
  | [], k, v => [(k, v)]
  | p :: rest, k, v => if p.1 = k then (k, v) :: rest else p :: setKey rest k v

/-- One step of `Object.assign(target, source)`: every own key of
`source`, in order, is written into `target`. -/
def objAssign {V : Type} (target source : List (String × V)) :
    List (String × V) :=
  source.foldl (fun acc kv => setKey acc kv.1 kv.2) target

/-- `AgentContext.buildContext` from `src/agent/context.ts`:
`Object.assign({}, ...results)` over the hook results. `Promise.all`
returns the settled values positionally, i.e. in registration order,
regardless of which hook settles first, so `results` is the list of
provider outputs in registration order. -/
def buildContext {V : Type} (results : List (List (String × V))) :
    List (String × V) :=
  results.foldl objAssign []

/-- Property access `obj[k]` on a merged context object. -/
def getKey {V : Type} (obj : List (String × V)) (k : String) : Option V :=
  (obj.find? (fun p => p.1 = k)).map (fun p => p.2)

/-- The value the last occurrence of key `k` carries in a source list
(JS objects have unique keys, so this coincides with `getKey` there). -/
def getKeyLast {V : Type} (obj : List (String × V)) (k : String) : Option V :=
  getKey obj.reverse k

/-- A JWKS entry (`JwksKey` in `src/server/validate.ts`); the optional
RSA / EC material fields are carried but never interpreted by the
governance logic. -/
structure JwksKey where
  kty : String
  kid : String
  alg : String
  keyUse : Option String
  n : Option String
  e : Option String
  crv : Option String
  x : Option String
  y : Option String
deriving DecidableEq, Repr

/-- A key set (`Jwks` in `src/server/validate.ts`). -/
structure Jwks where
  keys : List JwksKey
deriving DecidableEq, Repr

/-- The handle `crypto.subtle.importKey` returns: opaque to the caller,
determined by the JWK it was imported from and the algorithm used. -/
structure CryptoKey where
  jwk : JwksKey
  alg : String
deriving DecidableEq, Repr

/-- The mutable fields of `SpudValidator`: the cached key set with its
fetch timestamp (ms), and the per-kid parsed-key cache. -/
structure VState where
  jwksCache : Option Jwks
  jwksCachedAt : Nat
  cryptoKeyCache : List (String × CryptoKey)
deriving DecidableEq, Repr

/-- Parameters `getVerifyParams` builds for `crypto.subtle.verify`. -/
structure VerifyParams where
  name : String
  hash : Option String
deriving DecidableEq, Repr

/-- Parameters `getImportParams` builds for `crypto.subtle.importKey`. -/
structure ImportParams where
  name : String
  hash : Option String
  namedCurve : Option String
deriving DecidableEq, Repr

/-- `getVerifyParams` from `src/server/validate.ts`: only `RS256` and
`ES256` are supported, anything else throws `UNSUPPORTED_ALG`. -/
def getVerifyParams (alg : String) : Except ErrCode VerifyParams :=
  if alg = "RS256" then .ok { name := "RSASSA-PKCS1-v1_5", hash := none }
  else if alg = "ES256" then .ok { name := "ECDSA", hash := some "SHA-256" }
  else .error .UNSUPPORTED_ALG

/-- `getImportParams` from `src/server/validate.ts`. -/
def getImportParams (alg : String) : Except ErrCode ImportParams :=
  if alg = "RS256" then
    .ok { name := "RSASSA-PKCS1-v1_5", hash := some "SHA-256", namedCurve := none }
  else if alg = "ES256" then
    .ok { name := "ECDSA", hash := none, namedCurve := some "P-256" }
  else .error .UNSUPPORTED_ALG

/-- `importJwk` from `src/server/validate.ts`: builds the import
parameters (throwing `UNSUPPORTED_ALG` for an unsupported algorithm) and
yields the imported key handle. -/
def importJwk (jwk : JwksKey) (alg : String) : Except ErrCode CryptoKey :=
  (getImportParams alg).map (fun _ => { jwk := jwk, alg := alg })

/-- `SpudValidator.fetchJwks` from `src/server/validate.ts`. `now` is
`Date.now()` in ms and `net` the outcome a network fetch of
`/.well-known/jwks.json` would produce. Returns the key set, the updated
state, and how many network fetches were performed (0 on a TTL-fresh
cache hit, 1 otherwise). A successful fetch replaces the key set
wholesale and clears the parsed-key cache. -/
def fetchJwks (ttl : Nat) (now : Nat) (net : HttpOutcome Jwks) (st : VState) :
    Except ErrCode (Jwks × VState) × Nat :=
  if st.jwksCache.isSome ∧ (now : Int) - (st.jwksCachedAt : Int) < (ttl : Int) then
    (.ok (st.jwksCache.getD ⟨[]⟩, st), 0)
  else
    match net with
    | .netFail => (.error .NETWORK_FAILURE, 1)
    | .httpError status => (.error (.JWKS_FETCH_FAILED status), 1)
    | .ok jwks =>
      (.ok (jwks, { jwksCache := some jwks, jwksCachedAt := now, cryptoKeyCache := [] }), 1)

/-- `SpudValidator.getSigningKey` from `src/server/validate.ts`.
`net i` is the outcome of the `i`-th network fetch this call performs.
Order of operations mirrors the source exactly: parsed-key cache first;
then `fetchJwks` and a kid lookup; on a miss, `jwksCachedAt = 0`
followed by one more `fetchJwks` (the single forced refetch) and a
second lookup; `KEY_NOT_FOUND` if the kid is still absent; otherwise the
key is imported (which is where an unsupported algorithm throws) and
cached. The second component counts network fetches performed. -/
def getSigningKey (ttl : Nat) (now : Nat) (net : Nat → HttpOutcome Jwks)
    (st : VState) (kid alg : String) :
    Except ErrCode (CryptoKey × VState) × Nat :=
  match (st.cryptoKeyCache.find? (fun p => p.1 = kid)).map (fun p => p.2) with
  | some cached => (.ok (cached, st), 0)
  | none =>
    match fetchJwks ttl now (net 0) st with
    | (.error err, n1) => (.error err, n1)
    | (.ok (jwks1, st1), n1) =>
      match jwks1.keys.find? (fun k => k.kid = kid) with
      | some jwk =>
        match importJwk jwk alg with
        | .error err => (.error err, n1)
        | .ok key =>
          (.ok (key, { st1 with cryptoKeyCache := setKey st1.cryptoKeyCache kid key }), n1)
      | none =>
        match fetchJwks ttl now (net n1) { st1 with jwksCachedAt := 0 } with
        | (.error err, n2) => (.error err, n1 + n2)
        | (.ok (jwks2, st2), n2) =>
          match jwks2.keys.find? (fun k => k.kid = kid) with
          | some jwk =>
            match importJwk jwk alg with
            | .error err => (.error err, n1 + n2)
            | .ok key =>
              (.ok (key, { st2 with cryptoKeyCache := setKey st2.cryptoKeyCache kid key }),
               n1 + n2)
          | none => (.error .KEY_NOT_FOUND, n1 + n2)

/-- JS `token.split(".")` on the character list: `""` yields `[""]`,
separators at the ends and adjacent separators yield empty segments. -/
def splitOnDot (cs : List Char) : List (List Char) :=
  match cs with
  | [] => [[]]
  | c :: rest =>
    let tail := splitOnDot rest
    if c = '.' then [] :: tail
    else
      match tail with
      | [] => [[c]]
      | t :: ts => (c :: t) :: ts

/-- `token.split(".")` as a list of strings. -/
def splitToken (token : String) : List String :=
  (splitOnDot token.data).map (fun cs => String.mk cs)

/-- The decoded JWT header fields the validator reads (`header.kid`,
`header.alg`, both possibly absent). -/
structure HeaderObj where
  kid : Option String
  alg : Option String
deriving DecidableEq, Repr

/-- `SpudClaims` from `src/types.ts`. `exp` and `iat` are declared as
numbers but checked at runtime with `!== undefined`, hence optional. -/
structure SpudClaims where
  tenant_id : String
  profile : String
  permissions : List String
  scope : String
  event_id : String
  exp : Option Int
  iat : Option Int
  sub : String
deriving DecidableEq, Repr

/-- JS truthiness of an optional string: `undefined` and `""` are falsy
(the source checks `if (!kid || !alg)`). -/
def jsTruthy (o : Option String) : Bool :=
  match o with
  | some s => s.data ≠ []
  | none => false

/-- The ambient decode / crypto capabilities `validateToken` consumes:
base64url+JSON decode of the header segment, JSON decode of the payload
segment (`none` models a parse throw), and `crypto.subtle.verify` over
(params, key, signature segment, `headerB64.payloadB64`). -/
structure ValidateEnv where
  decodeHeader : String → Option HeaderObj
  decodeClaims : String → Option SpudClaims
  verifySig : VerifyParams → CryptoKey → String → String → Bool

/-- `SpudValidator.validateToken` from `src/server/validate.ts`, in
source order: three-segment format check, header decode, kid/alg
presence (JS truthiness), `getSigningKey` (kid lookup, forced refetch,
key import), `getVerifyParams`, signature verification, payload decode,
and the expiry check `claims.exp !== undefined && claims.exp < now`
with `now = Math.floor(Date.now() / 1000)`. `nowMs` is `Date.now()`.
Returns the claims with the updated validator state, and the number of
network JWKS fetches performed. -/
def validateToken (env : ValidateEnv) (ttl : Nat) (nowMs : Nat)
    (net : Nat → HttpOutcome Jwks) (st : VState) (token : String) :
    Except ErrCode (SpudClaims × VState) × Nat :=
  let parts := splitToken token
  if parts.length ≠ 3 then (.error .INVALID_JWT, 0)
  else
    let headerB64 := parts.getD 0 ""
    let payloadB64 := parts.getD 1 ""
    let signatureB64 := parts.getD 2 ""
    match env.decodeHeader headerB64 with
    | none => (.error .INVALID_JWT, 0)
    | some header =>
      if ¬ (jsTruthy header.kid ∧ jsTruthy header.alg) then
        (.error .INVALID_JWT, 0)
      else
        let kid := header.kid.getD ""
        let alg := header.alg.getD ""
        match getSigningKey ttl nowMs net st kid alg with
        | (.error err, n) => (.error err, n)
        | (.ok (key, st2), n) =>
          match getVerifyParams alg with
          | .error err => (.error err, n)
          | .ok algParams =>
            if ¬ env.verifySig algParams key signatureB64 (headerB64 ++ "." ++ payloadB64) then
              (.error .INVALID_SIGNATURE, n)
            else
              match env.decodeClaims payloadB64 with
              | none => (.error .JSON_SYNTAX_ERROR, n)
              | some claims =>
                let nowSec : Int := (nowMs : Int) / 1000
                match claims.exp with
                | some e =>
                  if e < nowSec then (.error .TOKEN_EXPIRED, n)
                  else (.ok (claims, st2), n)
                | none => (.ok (claims, st2), n)

instance exceptDecidableEq {ε α : Type} [DecidableEq ε] [DecidableEq α] :
    DecidableEq (Except ε α) := fun x y =>
  match x, y with
  | .error e, .error f =>
    if h : e = f then isTrue (by rw [h])
    else isFalse (fun hc => h (by injection hc))
  | .error _, .ok _ => isFalse (fun hc => Except.noConfusion hc)
  | .ok _, .error _ => isFalse (fun hc => Except.noConfusion hc)
  | .ok a, .ok b =>
    if h : a = b then isTrue (by rw [h])
    else isFalse (fun hc => h (by injection hc))

/-! ## Theorems settling the claims -/

/-- C1: for every tool call and every decision the remote service
returns, `intercept` derives `proceed` from the mode — `enforcing` gives
`proceed = decision.permitted` (both polarities), `permissive` and
`dry-run` give `proceed = true` unconditionally — and in all three modes
the returned decision object is the raw service decision, unmodified. -/
theorem intercept_success_mode_derivation
    (mode : GovernanceMode) (fp : FailurePolicy) (toolName : String)
    (st : ClientState) (net : HttpOutcome GovernResponse) (d : GovernResponse)
    (h : request st net = Except.ok d) :
    (intercept mode fp toolName st net).decision = d ∧
    (intercept mode fp toolName st net).proceed =
      (match mode with
       | GovernanceMode.enforcing => d.permitted
       | GovernanceMode.permissive => true
       | GovernanceMode.dryRun => true) := by
  unfold intercept
  rw [h]
  cases mode <;> simp

/-- Witness for C1: a connected, live client with a deny decision in
enforcing mode returns the raw decision with `proceed = false`. -/
theorem intercept_success_mode_derivation_witness :
    (intercept GovernanceMode.enforcing ⟨[], [], FailureMode.closed⟩ "send_email"
        ⟨some "jwt", 100, false⟩ (.ok ⟨false, some "no", "d-1"⟩)).decision
      = ⟨false, some "no", "d-1"⟩ ∧
    (intercept GovernanceMode.enforcing ⟨[], [], FailureMode.closed⟩ "send_email"
        ⟨some "jwt", 100, false⟩ (.ok ⟨false, some "no", "d-1"⟩)).proceed = false :=
  intercept_success_mode_derivation GovernanceMode.enforcing
    ⟨[], [], FailureMode.closed⟩ "send_email" ⟨some "jwt", 100, false⟩
    (.ok ⟨false, some "no", "d-1"⟩) ⟨false, some "no", "d-1"⟩ rfl

/-- C2: whenever the governance request fails (timeout, network error,
non-success status — any thrown error), `intercept` returns a synthetic
decision whose `permitted` equals "resolved failure mode is open", whose
reason is one of the two fixed diagnostic strings naming the applied
failure mode, and whose decision id is empty; the caller always receives
a decision-shaped `InterceptResult`. -/
theorem intercept_failure_policy_synthetic
    (mode : GovernanceMode) (fp : FailurePolicy) (toolName : String)
    (st : ClientState) (net : HttpOutcome GovernResponse) (e : ErrCode)
    (h : request st net = Except.error e) :
    (intercept mode fp toolName st net).decision.permitted
        = decide (failureModeFor fp toolName = FailureMode.open') ∧
    (intercept mode fp toolName st net).proceed
        = decide (failureModeFor fp toolName = FailureMode.open') ∧
    (intercept mode fp toolName st net).decision.reason
        = some (if failureModeFor fp toolName = FailureMode.open' then
            "Governance unavailable — fail-open applied"
          else
            "Governance unavailable — fail-closed applied") ∧
    (intercept mode fp toolName st net).decision.decision_id = "" := by
  unfold intercept
  rw [h]
  by_cases hfm : failureModeFor fp toolName = FailureMode.open' <;>
    simp [hfm]

/-- Witness for C2: a network failure with a fail-open pattern matching
the tool yields the permitted synthetic decision. -/
theorem intercept_failure_policy_synthetic_witness :
    (intercept GovernanceMode.enforcing ⟨["send_*"], [], FailureMode.closed⟩
        "send_email" ⟨some "jwt", 100, false⟩ HttpOutcome.netFail).decision.permitted
      = true ∧
    (intercept GovernanceMode.enforcing ⟨["send_*"], [], FailureMode.closed⟩
        "send_email" ⟨some "jwt", 100, false⟩ HttpOutcome.netFail).decision.reason
      = some "Governance unavailable — fail-open applied" := by
  have h := intercept_failure_policy_synthetic GovernanceMode.enforcing
    ⟨["send_*"], [], FailureMode.closed⟩ "send_email" ⟨some "jwt", 100, false⟩
    HttpOutcome.netFail ErrCode.NETWORK_FAILURE rfl
  refine ⟨?_, ?_⟩
  · rw [h.1]; decide
  · rw [h.2.2.1]; decide

/-- C3: `failureModeFor` resolves in fixed priority (fail-open patterns,
then fail-closed patterns, then the configured default, which defaults
to closed when not overridden); a pattern matches iff it equals the name
or ends in `*` and the name starts with the pattern's prefix; a name on
both lists resolves to open. -/
theorem failureModeFor_priority_and_pattern :
    (∀ (fp : FailurePolicy) (name : String),
      (matchesAny fp.failOpen name = true →
        failureModeFor fp name = FailureMode.open') ∧
      (matchesAny fp.failOpen name = false → matchesAny fp.failClosed name = true →
        failureModeFor fp name = FailureMode.closed) ∧
      (matchesAny fp.failOpen name = false → matchesAny fp.failClosed name = false →
        failureModeFor fp name = fp.dflt)) ∧
    (∀ fo fc, (mkFailurePolicy fo fc none).dflt = FailureMode.closed) ∧
    (∀ (p n : String), matchPattern p n = true ↔
      (p = n ∨ (endsWithStar p = true ∧ startsWithStem p n = true))) ∧
    failureModeFor ⟨["send_*"], ["send_*"], FailureMode.closed⟩ "send_email"
      = FailureMode.open' ∧
    matchPattern "get_*" "get_user" = true ∧
    matchPattern "get_*" "get_orders" = true ∧
    matchPattern "get_*" "getuser" = false ∧
    matchPattern "get_*" "list_get" = false := by
  refine ⟨?_, ?_, ?_, by decide, by decide, by decide, by decide, by decide⟩
  · intro fp name
    exact ⟨fun h1 => by simp [failureModeFor, h1],
           fun h1 h2 => by simp [failureModeFor, h1, h2],
           fun h1 h2 => by simp [failureModeFor, h1, h2]⟩
  · intro fo fc
    simp [mkFailurePolicy]
  · intro p n
    unfold matchPattern
    by_cases hstar : endsWithStar p = true
    · rw [if_pos hstar]
      constructor
      · intro h; exact Or.inr ⟨hstar, h⟩
      · rintro (rfl | ⟨_, h⟩)
        · unfold startsWithStem
          exact List.isPrefixOf_iff_prefix.mpr (List.dropLast_prefix p.data)
        · exact h
    · rw [Bool.not_eq_true] at hstar
      rw [if_neg (by simp [hstar]), decide_eq_true_eq]
      constructor
      · intro h
        exact Or.inl (String.ext h)
      · rintro (rfl | ⟨hs, _⟩)
        · rfl
        · exact absurd hs (by simp [hstar])

/-- Witness for C3: instantiating the pattern characterization at
`"get_*"` / `"get_user"` and the priority rule at the ambiguous
`send_*` policy. -/
theorem failureModeFor_priority_and_pattern_witness :
    matchPattern "get_*" "get_user" = true ∧
    failureModeFor ⟨["send_*"], ["send_*"], FailureMode.closed⟩ "send_email"
      = FailureMode.open' := by
  have h := failureModeFor_priority_and_pattern
  refine ⟨(h.2.2.1 "get_*" "get_user").mpr (Or.inr (by decide)), ?_⟩
  exact (h.1 ⟨["send_*"], ["send_*"], FailureMode.closed⟩ "send_email").1 (by decide)

/-- C10: when the session is destroyed or was never connected, a direct
`request` raises the typed `CLIENT_DESTROYED` / `NOT_CONNECTED` error,
but `intercept` does not surface it: its blanket catch produces the
failure-policy synthetic decision with
`proceed = (resolved failure mode = open)`. -/
theorem intercept_swallows_lifecycle_errors
    (mode : GovernanceMode) (fp : FailurePolicy) (toolName : String)
    (st : ClientState) (net : HttpOutcome GovernResponse)
    (h : st.destroyed = true ∨ st.jwt = none) :
    (st.destroyed = true →
      request st net = (Except.error ErrCode.CLIENT_DESTROYED : Except ErrCode GovernResponse)) ∧
    (st.destroyed = false → st.jwt = none →
      request st net = (Except.error ErrCode.NOT_CONNECTED : Except ErrCode GovernResponse)) ∧
    (intercept mode fp toolName st net).proceed
        = decide (failureModeFor fp toolName = FailureMode.open') ∧
    (intercept mode fp toolName st net).decision.permitted
        = decide (failureModeFor fp toolName = FailureMode.open') := by
  have hreq : ∃ e, request st net = (Except.error e : Except ErrCode GovernResponse) := by
    rcases h with hd | hj
    · exact ⟨ErrCode.CLIENT_DESTROYED, by simp [request, hd]⟩
    · by_cases hd : st.destroyed
      · exact ⟨ErrCode.CLIENT_DESTROYED, by simp [request, hd]⟩
      · exact ⟨ErrCode.NOT_CONNECTED, by simp [request, hd, hj]⟩
  rcases hreq with ⟨e, hreq⟩
  refine ⟨fun hd => by simp [request, hd], fun hd hj => by simp [request, hd, hj], ?_, ?_⟩
  · unfold intercept
    rw [hreq]
  · unfold intercept
    rw [hreq]

/-- Counterexample to C4 as stated: the body text `"null"` parses as
JSON (to `null`) without being a tool invocation, yet the handler does
not forward it verbatim — reading `body.method` on `null` throws an
uncaught TypeError, so the handler crashes with zero backend calls
instead of producing the forward of `"null"`. -/
theorem handler_null_body_claim_false :
    handler GovernanceMode.enforcing ⟨[], [], FailureMode.closed⟩
        ⟨some "jwt", 100, false⟩ (.nullBody "null")
        (.ok ⟨true, none, "d-1"⟩)
      = ⟨ProxyOutcome.crash, 0, 0⟩ ∧
    (⟨ProxyOutcome.crash, 0, 0⟩ : HandlerTrace)
      ≠ ⟨ProxyOutcome.forwardBody "null", 0, 1⟩ := by
  exact ⟨rfl, by decide⟩

/-- C4 amended: the proxy handler issues a governance request only for
bodies that parse as a JSON-RPC envelope with method `tools/call`.
Bodies that are not valid JSON, and parsed non-null bodies whose
`method` property is `undefined` or a string other than `tools/call`,
are forwarded verbatim with zero governance requests; a body parsing to
JSON `null` throws an uncaught TypeError (neither forwarded nor
answered, zero governance requests and zero backend calls), as does a
`tools/call` whose params is missing or null. For a `tools/call`
carrying a params object whose intercept result has `proceed = false`,
the handler returns the JSON-RPC error carrying the original message id
over HTTP 200 and makes zero backend calls; with `proceed = true` it
forwards the original body string unchanged. -/
theorem handler_selective_interception
    (mode : GovernanceMode) (fp : FailurePolicy) (st : ClientState)
    (net : HttpOutcome GovernResponse) :
    (∀ text, handler mode fp st (.malformed text) net
        = ⟨.forwardBody text, 0, 1⟩) ∧
    (∀ text, handler mode fp st (.nullBody text) net
        = ⟨.crash, 0, 0⟩) ∧
    (∀ text, handler mode fp st (.noMethod text) net
        = ⟨.forwardBody text, 0, 1⟩) ∧
    (∀ text req, req.method ≠ "tools/call" →
        handler mode fp st (.rpc text req) net = ⟨.forwardBody text, 0, 1⟩) ∧
    (∀ text req, req.method = "tools/call" → req.params = none →
        handler mode fp st (.rpc text req) net = ⟨.crash, 0, 0⟩) ∧
    (∀ text req params, req.method = "tools/call" → req.params = some params →
        ((intercept mode fp params.name st net).proceed = false →
          handler mode fp st (.rpc text req) net
            = ⟨ProxyOutcome.errorReply req.id (-32600)
                 ((intercept mode fp params.name st net).decision.reason.getD
                   "Action denied by governance policy") 200, 1, 0⟩) ∧
        ((intercept mode fp params.name st net).proceed = true →
          handler mode fp st (.rpc text req) net = ⟨.forwardBody text, 1, 1⟩)) := by
  refine ⟨fun text => rfl, fun text => rfl, fun text => rfl,
    fun text req hm => ?_, fun text req hm hp => ?_,
    fun text req params hm hp => ⟨?_, ?_⟩⟩
  · simp [handler, hm]
  · simp [handler, hm, hp]
  · intro hfalse
    simp [handler, hm, hp, hfalse, jsonRpcError]
  · intro htrue
    simp [handler, hm, hp, htrue]

/-- Witness for C4: a denied `tools/call` (enforcing mode, service says
deny) is answered with the JSON-RPC error on the original id, HTTP 200,
one governance request and zero backend calls. -/
theorem handler_selective_interception_witness :
    handler GovernanceMode.enforcing ⟨[], [], FailureMode.closed⟩
        ⟨some "jwt", 100, false⟩
        (.rpc "raw-body" ⟨RpcId.num 7, "tools/call", some ⟨"send_email", none⟩⟩)
        (.ok ⟨false, some "denied by policy", "d-1"⟩)
      = ⟨ProxyOutcome.errorReply (RpcId.num 7) (-32600) "denied by policy" 200, 1, 0⟩ := by
  have h := (handler_selective_interception GovernanceMode.enforcing
    ⟨[], [], FailureMode.closed⟩ ⟨some "jwt", 100, false⟩
    (.ok ⟨false, some "denied by policy", "d-1"⟩)).2.2.2.2.2
    "raw-body" ⟨RpcId.num 7, "tools/call", some ⟨"send_email", none⟩⟩
    ⟨"send_email", none⟩ rfl rfl
  exact h.1 rfl

/-- C8: `connect()` (through `fetchToken`) accepts a token-exchange
response exactly when the returned expiry is strictly after the fetch
time and at most the bounded maximum lifetime (7 days) beyond it, and
then stores the credential wholesale; a violating response fails with
`INVALID_TOKEN` and no credential is stored. -/
theorem fetchToken_expiry_bounds (st : ClientState) (nowSec : Int)
    (data : TokenResponse) :
    (fetchToken st nowSec (.ok data)
        = Except.ok { st with jwt := some data.token, jwtExpiresAt := data.expires_at }
      ↔ (nowSec < data.expires_at ∧
         data.expires_at ≤ nowSec + MAX_REASONABLE_TOKEN_LIFETIME_SEC)) ∧
    (¬ (nowSec < data.expires_at ∧
        data.expires_at ≤ nowSec + MAX_REASONABLE_TOKEN_LIFETIME_SEC) →
      fetchToken st nowSec (.ok data) = Except.error ErrCode.INVALID_TOKEN) := by
  constructor
  · unfold fetchToken
    by_cases h1 : data.expires_at ≤ nowSec
    · simp only [if_pos h1]
      constructor
      · intro hok; exact absurd hok (by simp)
      · intro hb; omega
    · by_cases h2 : data.expires_at > nowSec + MAX_REASONABLE_TOKEN_LIFETIME_SEC
      · simp only [if_neg h1, if_pos h2]
        constructor
        · intro hok; exact absurd hok (by simp)
        · intro hb; omega
      · simp only [if_neg h1, if_neg h2]
        constructor
        · intro _; omega
        · intro _; trivial
  · intro h
    unfold fetchToken
    by_cases h1 : data.expires_at ≤ nowSec
    · simp [h1]
    · by_cases h2 : data.expires_at > nowSec + MAX_REASONABLE_TOKEN_LIFETIME_SEC
      · simp [h1, h2]
      · exact absurd (by omega) h

/-- Witness for C8: a response expiring 1000 s after fetch time is
accepted and stored; one expiring exactly at fetch time is rejected. -/
theorem fetchToken_expiry_bounds_witness :
    fetchToken ClientState.initial 5000 (.ok ⟨"tok", 6000⟩)
      = Except.ok { jwt := some "tok", jwtExpiresAt := 6000, destroyed := false } ∧
    fetchToken ClientState.initial 5000 (.ok ⟨"tok2", 5000⟩)
      = Except.error ErrCode.INVALID_TOKEN := by
  constructor
  · exact (fetchToken_expiry_bounds ClientState.initial 5000 ⟨"tok", 6000⟩).1.mpr
      ⟨by decide, by decide⟩
  · exact (fetchToken_expiry_bounds ClientState.initial 5000 ⟨"tok2", 5000⟩).2
      (by decide)

/-- Reading a key after one JS property write: the written key now maps
to the new value; every other key is untouched. -/
theorem getKey_setKey {V : Type} (k k' : String) (v : V) (obj : List (String × V)) :
    getKey (setKey obj k' v) k = if k = k' then some v else getKey obj k := by
  induction obj with
  | nil =>
    by_cases hk : k = k'
    · simp [setKey, getKey, List.find?, hk]
    · simp [setKey, getKey, List.find?, hk, Ne.symm hk]
  | cons p rest ih =>
    by_cases hp : p.1 = k'
    · simp only [setKey, if_pos hp]
      by_cases hk : k = k'
      · simp [getKey, List.find?, hk]
      · have hpk : ¬ p.1 = k := by rw [hp]; exact Ne.symm hk
        simp [getKey, List.find?, hk, Ne.symm hk, hpk]
    · simp only [setKey, if_neg hp]
      by_cases hpk : p.1 = k
      · have hk : ¬ k = k' := by rw [← hpk]; exact hp
        simp [getKey, List.find?, hpk, hk]
      · simp only [getKey, List.find?] at ih ⊢
        simp [hpk, ih]

/-- Reading a key across a list append checks the left part first. -/
theorem getKey_append {V : Type} (k : String) (l₁ l₂ : List (String × V)) :
    getKey (l₁ ++ l₂) k = (getKey l₁ k).orElse (fun _ => getKey l₂ k) := by
  induction l₁ with
  | nil => simp [getKey]
  | cons p rest ih =>
    by_cases hp : p.1 = k
    · simp [getKey, List.find?, hp]
    · have h1 : getKey ((p :: rest) ++ l₂) k = getKey (rest ++ l₂) k := by
        simp [getKey, List.find?, hp]
      have h2 : getKey (p :: rest) k = getKey rest k := by
        simp [getKey, List.find?, hp]
      rw [h1, h2, ih]

/-- The last occurrence of a key in `kv :: rest` is the one in `rest`
when present, else `kv` itself. -/
theorem getKeyLast_cons {V : Type} (k : String) (kv : String × V)
    (rest : List (String × V)) :
    getKeyLast (kv :: rest) k
      = (getKeyLast rest k).orElse
          (fun _ => if k = kv.1 then some kv.2 else none) := by
  unfold getKeyLast
  rw [List.reverse_cons, getKey_append]
  cases h : getKey rest.reverse k
  · by_cases hk : k = kv.1
    · simp [h, getKey, List.find?, hk]
    · simp [h, getKey, List.find?, hk, Ne.symm hk]
  · simp [h]

/-- `Object.assign(target, source)`: a key reads from `source` (its last
occurrence) when `source` carries it, else from `target`. -/
theorem getKey_objAssign {V : Type} (k : String) :
    ∀ (source target : List (String × V)),
      getKey (objAssign target source) k
        = (getKeyLast source k).orElse (fun _ => getKey target k) := by
  intro source
  induction source with
  | nil => intro target; simp [objAssign, getKeyLast, getKey]
  | cons kv rest ih =>
    intro target
    have hstep : objAssign target (kv :: rest) = objAssign (setKey target kv.1 kv.2) rest := by
      simp [objAssign]
    rw [hstep, ih, getKeyLast_cons, getKey_setKey]
    cases hrest : getKeyLast rest k
    · by_cases hk : k = kv.1 <;> simp [hk]
    · simp

/-- C9: the merged context is the shallow left-to-right merge of the
provider outputs in registration order — appending one more registered
provider makes its keys win over everything merged before it (and
`Promise.all` hands `buildContext` the outputs positionally, so
completion timing is irrelevant) — and for providers returning `{a:1}`
then `{a:2,b:2}`, the merged context is exactly `{a:2,b:2}`. -/
theorem buildContext_last_registered_wins :
    (∀ (V : Type) (rs : List (List (String × V))) (r : List (String × V)) (k : String),
      getKey (buildContext (rs ++ [r])) k
        = (getKeyLast r k).orElse (fun _ => getKey (buildContext rs) k)) ∧
    buildContext [[("a", 1)], [("a", 2), ("b", 2)]] = [("a", 2), ("b", 2)] := by
  constructor
  · intro V rs r k
    unfold buildContext
    rw [List.foldl_append]
    exact getKey_objAssign k r (List.foldl objAssign [] rs)
  · decide

/-- Witness for C9 (the general conjunct has only non-Prop binders, but
we instantiate it anyway): with `{a:1}` registered before `{a:2,b:2}`,
key `a` reads `2` from the later provider. -/
theorem buildContext_last_registered_wins_witness :
    getKey (buildContext [[("a", 1)], [("a", 2), ("b", 2)]]) "a" = some 2 := by
  have h := buildContext_last_registered_wins.1 Nat [[("a", 1)]] [("a", 2), ("b", 2)] "a"
  rw [List.singleton_append] at h
  rw [h]
  decide

/-- A parsed-key cache hit returns the cached key immediately: no
network fetch, state untouched. -/
theorem getSigningKey_cacheHit (ttl now : Nat) (net : Nat → HttpOutcome Jwks)
    (st : VState) (kid alg : String) (key : CryptoKey)
    (hcc : (st.cryptoKeyCache.find? (fun p => p.1 = kid)).map (fun p => p.2)
             = some key) :
    getSigningKey ttl now net st kid alg = (.ok (key, st), 0) := by
  unfold getSigningKey
  rw [hcc]

/-- With a TTL-fresh cached key set containing the kid, the key is
imported from it with no network fetch. -/
theorem getSigningKey_freshCache_found (ttl now : Nat)
    (net : Nat → HttpOutcome Jwks) (st : VState) (kid alg : String)
    (jwks0 : Jwks) (jwk : JwksKey)
    (hcc : st.cryptoKeyCache.find? (fun p => p.1 = kid) = none)
    (hcache : st.jwksCache = some jwks0)
    (hfresh : (now : Int) - (st.jwksCachedAt : Int) < (ttl : Int))
    (hfind : jwks0.keys.find? (fun k => k.kid = kid) = some jwk) :
    getSigningKey ttl now net st kid alg =
      match importJwk jwk alg with
      | .error err => (.error err, 0)
      | .ok key =>
        (.ok (key, { st with cryptoKeyCache := setKey st.cryptoKeyCache kid key }), 0) := by
  unfold getSigningKey
  rw [hcc]
  have hfetch : fetchJwks ttl now (net 0) st = (.ok (jwks0, st), 0) := by
    unfold fetchJwks
    rw [if_pos ⟨by rw [hcache]; rfl, hfresh⟩]
    rw [hcache]
    rfl
  simp only [hfetch, hfind]
  rfl

/-- With a TTL-fresh cached key set missing the kid (and a realistic
clock, `ttl ≤ now`), exactly one forced network refetch happens and its
result alone decides the outcome. -/
theorem getSigningKey_forcedRefetch (ttl now : Nat)
    (net : Nat → HttpOutcome Jwks) (st : VState) (kid alg : String)
    (jwks0 : Jwks)
    (hcc : st.cryptoKeyCache.find? (fun p => p.1 = kid) = none)
    (hcache : st.jwksCache = some jwks0)
    (hfresh : (now : Int) - (st.jwksCachedAt : Int) < (ttl : Int))
    (hmiss0 : jwks0.keys.find? (fun k => k.kid = kid) = none)
    (httl : (ttl : Int) ≤ (now : Int)) :
    getSigningKey ttl now net st kid alg =
      match net 0 with
      | .netFail => (.error .NETWORK_FAILURE, 1)
      | .httpError s => (.error (.JWKS_FETCH_FAILED s), 1)
      | .ok jwks1 =>
        match jwks1.keys.find? (fun k => k.kid = kid) with
        | some jwk =>
          match importJwk jwk alg with
          | .error err => (.error err, 1)
          | .ok key => (.ok (key, ⟨some jwks1, now, [(kid, key)]⟩), 1)
        | none => (.error .KEY_NOT_FOUND, 1) := by
  unfold getSigningKey
  rw [hcc]
  have hfetch : fetchJwks ttl now (net 0) st = (.ok (jwks0, st), 0) := by
    unfold fetchJwks
    rw [if_pos ⟨by rw [hcache]; rfl, hfresh⟩]
    rw [hcache]
    rfl
  have hforce : ¬ (({ st with jwksCachedAt := 0 } : VState).jwksCache.isSome
      ∧ (now : Int) - (({ st with jwksCachedAt := 0 } : VState).jwksCachedAt : Int)
          < (ttl : Int)) := by
    intro hc
    have := hc.2
    simp only [Nat.cast_zero] at this
    omega
  simp only [hfetch, hmiss0]
  unfold fetchJwks
  rw [if_neg hforce]
  cases hnet : net 0 with
  | netFail => rfl
  | httpError s => rfl
  | ok jwks1 =>
    cases hfind : jwks1.keys.find? (fun k => k.kid = kid) with
    | none => simp [hfind]
    | some jwk =>
      cases himp : importJwk jwk alg with
      | error err => simp [hfind, himp]
      | ok key => simp [hfind, himp, setKey]

/-- Once the token has three segments and the header decodes with a
truthy kid and alg, `validateToken` is the signing-key resolution
followed by verify-params, signature check, claims decode and expiry
check, all sharing the fetch count of the key resolution. -/
theorem validateToken_after_header (env : ValidateEnv) (ttl nowMs : Nat)
    (net : Nat → HttpOutcome Jwks) (st : VState) (token : String)
    (hB pB sB kid alg : String)
    (hsplit : splitToken token = [hB, pB, sB])
    (hdr : env.decodeHeader hB = some ⟨some kid, some alg⟩)
    (hkid : jsTruthy (some kid) = true)
    (halg : jsTruthy (some alg) = true) :
    validateToken env ttl nowMs net st token =
      match getSigningKey ttl nowMs net st kid alg with
      | (.error err, n) => (.error err, n)
      | (.ok (key, st2), n) =>
        match getVerifyParams alg with
        | .error err => (.error err, n)
        | .ok algParams =>
          if ¬ env.verifySig algParams key sB (hB ++ "." ++ pB) then
            (.error .INVALID_SIGNATURE, n)
          else
            match env.decodeClaims pB with
            | none => (.error .JSON_SYNTAX_ERROR, n)
            | some claims =>
              match claims.exp with
              | some e =>
                if e < (nowMs : Int) / 1000 then (.error .TOKEN_EXPIRED, n)
                else (.ok (claims, st2), n)
              | none => (.ok (claims, st2), n) := by
  unfold validateToken
  rw [hsplit]
  simp [hdr, hkid, halg]

/-- Counterexample to C5 as stated: a token whose header names the
unsupported algorithm `HS256` under a kid absent from the cached key
set does NOT fail with `UNSUPPORTED_ALG` before a key lookup — the
lookup runs first (performing one forced network refetch of the key
set) and the validation fails with `KEY_NOT_FOUND`. -/
theorem validateToken_unsupported_alg_claim_false :
    validateToken
      ⟨fun s => if s = "H" then some ⟨some "kid-x", some "HS256"⟩ else none,
       fun _ => none, fun _ _ _ _ => true⟩
      3600000 5000000
      (fun _ => .ok ⟨[⟨"RSA", "k1", "RS256", none, none, none, none, none, none⟩]⟩)
      ⟨some ⟨[⟨"RSA", "k1", "RS256", none, none, none, none, none, none⟩]⟩, 5000000, []⟩
      "H.P.S"
    = (.error .KEY_NOT_FOUND, 1) ∧
    (ErrCode.KEY_NOT_FOUND ≠ ErrCode.UNSUPPORTED_ALG) := by
  exact ⟨rfl, by decide⟩

/-- C5 amended: for a well-formed token naming an algorithm other than
RS256 / ES256, the signing-key lookup runs before any algorithm check;
`validateToken` fails with `UNSUPPORTED_ALG` when the kid resolves —
from the parsed-key cache, or from a TTL-fresh cached key set — and
with `KEY_NOT_FOUND` (one forced refetch, algorithm never consulted)
when the kid is absent from the cached and refetched key sets. -/
theorem validateToken_unsupported_alg_after_lookup
    (env : ValidateEnv) (ttl nowMs : Nat) (net : Nat → HttpOutcome Jwks)
    (st : VState) (token : String) (hB pB sB kid alg : String)
    (hsplit : splitToken token = [hB, pB, sB])
    (hdr : env.decodeHeader hB = some ⟨some kid, some alg⟩)
    (hkid : jsTruthy (some kid) = true)
    (halg : jsTruthy (some alg) = true)
    (hns1 : alg ≠ "RS256") (hns2 : alg ≠ "ES256") :
    ((∃ key, (st.cryptoKeyCache.find? (fun p => p.1 = kid)).map (fun p => p.2)
        = some key) →
      validateToken env ttl nowMs net st token = (.error .UNSUPPORTED_ALG, 0)) ∧
    (∀ jwks0 jwk,
      st.cryptoKeyCache.find? (fun p => p.1 = kid) = none →
      st.jwksCache = some jwks0 →
      (nowMs : Int) - (st.jwksCachedAt : Int) < (ttl : Int) →
      jwks0.keys.find? (fun k => k.kid = kid) = some jwk →
      validateToken env ttl nowMs net st token = (.error .UNSUPPORTED_ALG, 0)) ∧
    (∀ jwks0 jwks1,
      st.cryptoKeyCache.find? (fun p => p.1 = kid) = none →
      st.jwksCache = some jwks0 →
      (nowMs : Int) - (st.jwksCachedAt : Int) < (ttl : Int) →
      jwks0.keys.find? (fun k => k.kid = kid) = none →
      (ttl : Int) ≤ (nowMs : Int) →
      net 0 = .ok jwks1 →
      jwks1.keys.find? (fun k => k.kid = kid) = none →
      validateToken env ttl nowMs net st token = (.error .KEY_NOT_FOUND, 1)) := by
  have hvp : getVerifyParams alg = .error .UNSUPPORTED_ALG := by
    simp [getVerifyParams, hns1, hns2]
  have hip : getImportParams alg = .error .UNSUPPORTED_ALG := by
    simp [getImportParams, hns1, hns2]
  rw [validateToken_after_header env ttl nowMs net st token hB pB sB kid alg
    hsplit hdr hkid halg]
  refine ⟨?_, ?_, ?_⟩
  · rintro ⟨key, hcc⟩
    rw [getSigningKey_cacheHit ttl nowMs net st kid alg key hcc, hvp]
  · intro jwks0 jwk hcc hcache hfresh hfind
    rw [getSigningKey_freshCache_found ttl nowMs net st kid alg jwks0 jwk
      hcc hcache hfresh hfind]
    simp only [importJwk, hip]
    rfl
  · intro jwks0 jwks1 hcc hcache hfresh hmiss0 httl hnet hmiss1
    rw [getSigningKey_forcedRefetch ttl nowMs net st kid alg jwks0
      hcc hcache hfresh hmiss0 httl, hnet]
    simp [hmiss1]

/-- Witness for the amended C5: a cached parsed key for the kid, header
algorithm `HS256` — the lookup hits the cache, then the algorithm check
fails with `UNSUPPORTED_ALG` and zero fetches. -/
theorem validateToken_unsupported_alg_after_lookup_witness :
    validateToken
      ⟨fun s => if s = "H" then some ⟨some "k1", some "HS256"⟩ else none,
       fun _ => none, fun _ _ _ _ => true⟩
      3600000 5000000
      (fun _ => .ok ⟨[]⟩)
      ⟨some ⟨[]⟩, 5000000,
        [("k1", ⟨⟨"RSA", "k1", "RS256", none, none, none, none, none, none⟩, "RS256"⟩)]⟩
      "H.P.S"
    = (.error .UNSUPPORTED_ALG, 0) := by
  exact (validateToken_unsupported_alg_after_lookup
    ⟨fun s => if s = "H" then some ⟨some "k1", some "HS256"⟩ else none,
     fun _ => none, fun _ _ _ _ => true⟩
    3600000 5000000 (fun _ => .ok ⟨[]⟩)
    ⟨some ⟨[]⟩, 5000000,
      [("k1", ⟨⟨"RSA", "k1", "RS256", none, none, none, none, none, none⟩, "RS256"⟩)]⟩
    "H.P.S" "H" "P" "S" "k1" "HS256" rfl rfl rfl rfl
    (by decide) (by decide)).1
    ⟨⟨⟨"RSA", "k1", "RS256", none, none, none, none, none, none⟩, "RS256"⟩, rfl⟩

/-- Counterexample to C6 as stated: a validly signed token whose `exp`
claim equals the current time (5000 s, i.e. `nowMs = 5000000`) is NOT
rejected as expired — the source checks `claims.exp < now` strictly, so
validation succeeds at the boundary. -/
theorem validateToken_expiry_boundary_claim_false :
    validateToken
      ⟨fun s => if s = "H" then some ⟨some "k1", some "RS256"⟩ else none,
       fun s => if s = "P" then
           some ⟨"t1", "prod", [], "agent", "evt", some 5000, none, "sub"⟩
         else none,
       fun _ _ _ _ => true⟩
      3600000 5000000
      (fun _ => .ok ⟨[]⟩)
      ⟨some ⟨[]⟩, 5000000,
        [("k1", ⟨⟨"RSA", "k1", "RS256", none, none, none, none, none, none⟩, "RS256"⟩)]⟩
      "H.P.S"
    = (.ok (⟨"t1", "prod", [], "agent", "evt", some 5000, none, "sub"⟩,
        ⟨some ⟨[]⟩, 5000000,
          [("k1", ⟨⟨"RSA", "k1", "RS256", none, none, none, none, none, none⟩, "RS256"⟩)]⟩), 0) ∧
    (5000000 : Int) / 1000 = 5000 := by
  exact ⟨rfl, by decide⟩

/-- C6 amended: for a validly signed token, `validateToken` fails with
`TOKEN_EXPIRED` exactly when an `exp` claim is present and strictly in
the past (`exp < floor(nowMs / 1000)`); an expiry equal to the current
second passes, and with no `exp` claim validation succeeds and returns
the claims. -/
theorem validateToken_expiry_strict_past
    (env : ValidateEnv) (ttl nowMs : Nat) (net : Nat → HttpOutcome Jwks)
    (st : VState) (token : String) (hB pB sB kid alg : String)
    (key : CryptoKey) (algParams : VerifyParams) (claims : SpudClaims)
    (hsplit : splitToken token = [hB, pB, sB])
    (hdr : env.decodeHeader hB = some ⟨some kid, some alg⟩)
    (hkid : jsTruthy (some kid) = true)
    (halg : jsTruthy (some alg) = true)
    (hcc : (st.cryptoKeyCache.find? (fun p => p.1 = kid)).map (fun p => p.2)
             = some key)
    (hvp : getVerifyParams alg = .ok algParams)
    (hsig : env.verifySig algParams key sB (hB ++ "." ++ pB) = true)
    (hclaims : env.decodeClaims pB = some claims) :
    (∀ e, claims.exp = some e → e < (nowMs : Int) / 1000 →
      validateToken env ttl nowMs net st token = (.error .TOKEN_EXPIRED, 0)) ∧
    (∀ e, claims.exp = some e → (nowMs : Int) / 1000 ≤ e →
      validateToken env ttl nowMs net st token = (.ok (claims, st), 0)) ∧
    (claims.exp = none →
      validateToken env ttl nowMs net st token = (.ok (claims, st), 0)) := by
  rw [validateToken_after_header env ttl nowMs net st token hB pB sB kid alg
    hsplit hdr hkid halg,
    getSigningKey_cacheHit ttl nowMs net st kid alg key hcc, hvp]
  refine ⟨?_, ?_, ?_⟩
  · intro e hexp hlt
    simp [hsig, hclaims, hexp, hlt]
  · intro e hexp hge
    simp [hsig, hclaims, hexp, not_lt.mpr hge]
  · intro hexp
    simp [hsig, hclaims, hexp]

/-- Witness for the amended C6: a token expiring 1000 s in the future
validates, via the strict-past expiry rule. -/
theorem validateToken_expiry_strict_past_witness :
    validateToken
      ⟨fun s => if s = "H" then some ⟨some "k1", some "RS256"⟩ else none,
       fun s => if s = "P" then
           some ⟨"t1", "prod", [], "agent", "evt", some 6000, none, "sub"⟩
         else none,
       fun _ _ _ _ => true⟩
      3600000 5000000
      (fun _ => .ok ⟨[]⟩)
      ⟨some ⟨[]⟩, 5000000,
        [("k1", ⟨⟨"RSA", "k1", "RS256", none, none, none, none, none, none⟩, "RS256"⟩)]⟩
      "H.P.S"
    = (.ok (⟨"t1", "prod", [], "agent", "evt", some 6000, none, "sub"⟩,
        ⟨some ⟨[]⟩, 5000000,
          [("k1", ⟨⟨"RSA", "k1", "RS256", none, none, none, none, none, none⟩, "RS256"⟩)]⟩), 0) := by
  exact (validateToken_expiry_strict_past
    ⟨fun s => if s = "H" then some ⟨some "k1", some "RS256"⟩ else none,
     fun s => if s = "P" then
         some ⟨"t1", "prod", [], "agent", "evt", some 6000, none, "sub"⟩
       else none,
     fun _ _ _ _ => true⟩
    3600000 5000000 (fun _ => .ok ⟨[]⟩)
    ⟨some ⟨[]⟩, 5000000,
      [("k1", ⟨⟨"RSA", "k1", "RS256", none, none, none, none, none, none⟩, "RS256"⟩)]⟩
    "H.P.S" "H" "P" "S" "k1" "RS256"
    ⟨⟨"RSA", "k1", "RS256", none, none, none, none, none, none⟩, "RS256"⟩
    ⟨"RSASSA-PKCS1-v1_5", none⟩
    ⟨"t1", "prod", [], "agent", "evt", some 6000, none, "sub"⟩
    rfl rfl rfl rfl rfl rfl rfl rfl).2.1 6000 rfl (by decide)

/-- C7: with the kid absent from the parsed-key cache and the TTL-fresh
cached key set, key resolution performs exactly one forced network
refetch (fetch count 1 in every outcome — never a second attempt):
if the refetch transport fails that error surfaces; if the kid is still
absent, `validateToken` fails with `KEY_NOT_FOUND`; and if the forced
refetch surfaces the kid, validation succeeds end to end. -/
theorem validateToken_single_forced_refetch
    (env : ValidateEnv) (ttl nowMs : Nat) (net : Nat → HttpOutcome Jwks)
    (st : VState) (token : String) (hB pB sB kid alg : String) (jwks0 : Jwks)
    (hsplit : splitToken token = [hB, pB, sB])
    (hdr : env.decodeHeader hB = some ⟨some kid, some alg⟩)
    (hkid : jsTruthy (some kid) = true)
    (halg : jsTruthy (some alg) = true)
    (hcc : st.cryptoKeyCache.find? (fun p => p.1 = kid) = none)
    (hcache : st.jwksCache = some jwks0)
    (hfresh : (nowMs : Int) - (st.jwksCachedAt : Int) < (ttl : Int))
    (hmiss0 : jwks0.keys.find? (fun k => k.kid = kid) = none)
    (httl : (ttl : Int) ≤ (nowMs : Int)) :
    (∀ s, net 0 = .httpError s →
      validateToken env ttl nowMs net st token
        = (.error (.JWKS_FETCH_FAILED s), 1)) ∧
    (∀ jwks1, net 0 = .ok jwks1 →
      jwks1.keys.find? (fun k => k.kid = kid) = none →
      validateToken env ttl nowMs net st token = (.error .KEY_NOT_FOUND, 1)) ∧
    (∀ jwks1 jwk claims, net 0 = .ok jwks1 →
      jwks1.keys.find? (fun k => k.kid = kid) = some jwk →
      alg = "RS256" →
      env.verifySig ⟨"RSASSA-PKCS1-v1_5", none⟩ ⟨jwk, alg⟩ sB (hB ++ "." ++ pB) = true →
      env.decodeClaims pB = some claims →
      claims.exp = none →
      validateToken env ttl nowMs net st token
        = (.ok (claims, ⟨some jwks1, nowMs, [(kid, ⟨jwk, alg⟩)]⟩), 1)) := by
  rw [validateToken_after_header env ttl nowMs net st token hB pB sB kid alg
    hsplit hdr hkid halg,
    getSigningKey_forcedRefetch ttl nowMs net st kid alg jwks0
      hcc hcache hfresh hmiss0 httl]
  refine ⟨?_, ?_, ?_⟩
  · intro s hnet
    rw [hnet]
  · intro jwks1 hnet hmiss1
    rw [hnet]
    simp [hmiss1]
  · intro jwks1 jwk claims hnet hfind1 halgRS hsig hclaims hexp
    subst halgRS
    rw [hnet]
    have himp : importJwk jwk "RS256" = .ok ⟨jwk, "RS256"⟩ := rfl
    simp [hfind1, himp, getVerifyParams, hsig, hclaims, hexp]

/-- Witness for C7: kid `k2` is in neither the cached key set nor the
refetched one — `KEY_NOT_FOUND` after exactly one network fetch. -/
theorem validateToken_single_forced_refetch_witness :
    validateToken
      ⟨fun s => if s = "H" then some ⟨some "k2", some "RS256"⟩ else none,
       fun _ => none, fun _ _ _ _ => true⟩
      3600000 5000000
      (fun _ => .ok ⟨[⟨"RSA", "k1", "RS256", none, none, none, none, none, none⟩]⟩)
      ⟨some ⟨[⟨"RSA", "k1", "RS256", none, none, none, none, none, none⟩]⟩, 5000000, []⟩
      "H.P.S"
    = (.error .KEY_NOT_FOUND, 1) := by
  exact (validateToken_single_forced_refetch
    ⟨fun s => if s = "H" then some ⟨some "k2", some "RS256"⟩ else none,
     fun _ => none, fun _ _ _ _ => true⟩
    3600000 5000000
    (fun _ => .ok ⟨[⟨"RSA", "k1", "RS256", none, none, none, none, none, none⟩]⟩)
    ⟨some ⟨[⟨"RSA", "k1", "RS256", none, none, none, none, none, none⟩]⟩, 5000000, []⟩
    "H.P.S" "H" "P" "S" "k2" "RS256"
    ⟨[⟨"RSA", "k1", "RS256", none, none, none, none, none, none⟩]⟩
    rfl rfl rfl rfl rfl rfl (by decide) rfl (by decide)).2.1
    ⟨[⟨"RSA", "k1", "RS256", none, none, none, none, none, none⟩]⟩ rfl rfl

/-- Witness for C10: a destroyed client with a default fail-closed
policy — `request` raises `CLIENT_DESTROYED`, while `intercept` returns
the synthetic deny. -/
theorem intercept_swallows_lifecycle_errors_witness :
    request (⟨some "jwt", 100, true⟩ : ClientState)
        (HttpOutcome.ok (⟨true, none, "d-1"⟩ : GovernResponse))
      = Except.error ErrCode.CLIENT_DESTROYED ∧
    (intercept GovernanceMode.enforcing ⟨[], [], FailureMode.closed⟩ "send_email"
        ⟨some "jwt", 100, true⟩ (.ok ⟨true, none, "d-1"⟩)).proceed = false := by
  have h := intercept_swallows_lifecycle_errors GovernanceMode.enforcing
    ⟨[], [], FailureMode.closed⟩ "send_email" ⟨some "jwt", 100, true⟩
    (.ok ⟨true, none, "d-1"⟩) (Or.inl rfl)
  refine ⟨h.1 rfl, ?_⟩
  rw [h.2.2.1]; decide

end Spud
